import Mathlib

/-!
# Verification of the ytdlp-api job pipeline specification

Shallow embedding of the rate limiter, circuit breaker, job queue, HTTP
endpoint decision logic, download-service terminal handling, progress
tracker and input validators of the ytdlp-api repository, together with
theorems settling the specification claims about them.

Conventions: Redis counters and timestamps are naturals / integers, the
stored value of an absent key is `Option.none`, Python exceptions become
`Except` errors, and real-valued quantities (percent, speed, ETA) are
rationals.
-/

set_option autoImplicit false

/-! ## Rate limiting (`core/auth/security.py` and `redis_manager.py`) -/

namespace RateLimit

/-- One call of `check_rate_limit` in `core/auth/security.py` for a fixed
client IP.  `store` is the value of the Redis key for that IP (`none` when
absent).  The code runs `increment_stat` (Redis INCR: an absent key counts
as 0 and is set to 1) and raises `RateLimitError` (HTTP 429) when the
incremented count exceeds `RATE_LIMIT_PER_MINUTE`.  The returned `Bool` is
`true` when the request is allowed. -/
def check_rate_limit (limit : Nat) (store : Option Nat) : Bool × Option Nat :=
  let current := store.getD 0 + 1
  (decide (current ≤ limit), some current)

/-- `RedisManager.check_rate_limit` in `src/redis_manager.py`: an absent key
is set to 1 (allow); otherwise the request is rejected when the stored count
is already at least the limit, and the count is incremented only when the
request is allowed. -/
def check_rate_limit_legacy (limit : Nat) (store : Option Nat) : Bool × Option Nat :=
  match store with
  | none => (true, some 1)
  | some count =>
      if limit ≤ count then (false, some count)
      else (true, some (count + 1))

/-- Counter value after `n` calls of `check_rate_limit` inside one
60-second window, starting from an absent key. -/
def stateAfter (limit : Nat) : Nat → Option Nat
  | 0 => none
  | n + 1 => (check_rate_limit limit (stateAfter limit n)).2

/-- Whether call number `n + 1` (0-indexed `n`) of the window is allowed. -/
def callResult (limit n : Nat) : Bool :=
  (check_rate_limit limit (stateAfter limit n)).1

/-- Counter value after `n` calls of the legacy `check_rate_limit`,
starting from an absent key. -/
def stateAfterLegacy (limit : Nat) : Nat → Option Nat
  | 0 => none
  | n + 1 => (check_rate_limit_legacy limit (stateAfterLegacy limit n)).2

/-- Whether call number `n + 1` of the window is allowed by the legacy
checker. -/
def callResultLegacy (limit n : Nat) : Bool :=
  (check_rate_limit_legacy limit (stateAfterLegacy limit n)).1

theorem stateAfter_eq (limit : Nat) : ∀ n, stateAfter limit n = if n = 0 then none else some n
  | 0 => rfl
  | n + 1 => by
      simp only [stateAfter, stateAfter_eq limit n, check_rate_limit]
      cases n <;> simp

theorem stateAfterLegacy_eq (limit : Nat) (hl : 1 ≤ limit) :
    ∀ n, stateAfterLegacy limit n = if n = 0 then none else some (min n limit)
  | 0 => rfl
  | n + 1 => by
      simp only [stateAfterLegacy, stateAfterLegacy_eq limit hl n, check_rate_limit_legacy]
      rcases n with _ | m
      · simp [Nat.min_eq_left hl]
      · simp only [Nat.succ_ne_zero, if_false]
        by_cases h : limit ≤ min (m + 1) limit
        · have hml : limit ≤ m + 1 := by
            rcases Nat.le_total (m + 1) limit with h1 | h1
            · omega
            · exact h1
          simp [h, Nat.min_eq_right hml, Nat.min_eq_right (le_trans hml (Nat.le_succ _))]
        · have hml : ¬ limit ≤ m + 1 := by omega
          have h1 : m + 1 ≤ limit := by omega
          have h2 : m + 2 ≤ limit := by omega
          simp [Nat.min_eq_left h1, Nat.min_eq_left h2, hml]

theorem callResult_eq (limit n : Nat) : callResult limit n = decide (n + 1 ≤ limit) := by
  simp only [callResult, check_rate_limit, stateAfter_eq]
  cases n <;> simp

theorem callResultLegacy_eq (limit n : Nat) (hl : 1 ≤ limit) :
    callResultLegacy limit n = decide (n = 0 ∨ n < limit) := by
  simp only [callResultLegacy, check_rate_limit_legacy, stateAfterLegacy_eq limit hl]
  rcases n with _ | m
  · simp
  · simp only [Nat.succ_ne_zero, if_false]
    by_cases h : limit ≤ min (m + 1) limit
    · have : ¬ (m + 1 < limit) := by omega
      simp [h, this]
    · have : m + 1 < limit := by omega
      simp [h, this]

/-- `C1`: starting from an absent counter, within one window the first
`RATE_LIMIT_PER_MINUTE` calls of `check_rate_limit` are allowed and the
`RATE_LIMIT_PER_MINUTE + 1`-st is rejected with HTTP 429; a call is
rejected exactly when the incremented counter exceeds the limit.  The
same window behaviour holds for the legacy `RedisManager.check_rate_limit`. -/
theorem c1_rate_limit_window (limit j : Nat) (hj : j < limit) :
    callResult limit j = true ∧
    callResult limit limit = false ∧
    (∀ store : Option Nat,
        (check_rate_limit limit store).1 = false ↔ limit < store.getD 0 + 1) ∧
    callResultLegacy limit j = true ∧
    callResultLegacy limit limit = false := by
  have hl : 1 ≤ limit := by omega
  refine ⟨?_, ?_, ?_, ?_, ?_⟩
  · rw [callResult_eq]; simpa using hj
  · rw [callResult_eq]; simp
  · intro store
    simp only [check_rate_limit]
    constructor
    · intro h
      by_contra hc
      simp [Nat.not_lt] at hc
      simp [hc] at h
    · intro h
      simp [Nat.not_le.mpr h]
  · rw [callResultLegacy_eq limit j hl]
    simp [hj]
  · rw [callResultLegacy_eq limit limit hl]
    simp [hl, Nat.lt_irrefl]
    omega

/-- Witness for `c1_rate_limit_window` at the default limit 3. -/
theorem c1_rate_limit_window_witness :
    callResult 3 0 = true ∧ callResult 3 3 = false ∧ callResultLegacy 3 3 = false := by
  have h := c1_rate_limit_window 3 0 (by decide)
  exact ⟨h.1, h.2.1, h.2.2.2.2⟩

end RateLimit

/-! ## Progress tracker (`infrastructure/progress_tracker.py`) -/

namespace Progress

/-- The progress snapshot stored in Redis under the key with the task-id
suffix (the fields `update_progress` reads or writes). -/
structure ProgressData where
  progress : ℚ
  current_bytes : Int
  total_bytes : Int
  speed_bps : ℚ
  eta_seconds : Option ℚ
  deriving DecidableEq, Repr

/-- `ProgressTracker.update_progress`: returns `false` and leaves the store
untouched when no snapshot exists; otherwise clamps the percent into
`[0, 100]`, records the byte counters and speed, and sets
`eta_seconds := (total_bytes - current_bytes) / speed_bps` when
`total_bytes > 0` and `speed_bps > 0`, and `none` otherwise. -/
def update_progress (store : Option ProgressData) (progress : ℚ)
    (current_bytes total_bytes : Int) (speed_bps : ℚ) : Bool × Option ProgressData :=
  match store with
  | none => (false, none)
  | some d =>
      let clamped := max 0 (min 100 progress)
      let eta : Option ℚ :=
        if 0 < total_bytes ∧ 0 < speed_bps then
          some (((total_bytes : ℚ) - (current_bytes : ℚ)) / speed_bps)
        else none
      (true, some { d with
        progress := clamped
        current_bytes := current_bytes
        total_bytes := total_bytes
        speed_bps := speed_bps
        eta_seconds := eta })

/-- `C7`: for every update on an existing snapshot the stored percent is the
input clamped into `[0, 100]` and the stored ETA is
`(total_bytes - current_bytes) / speed_bps` exactly when `total_bytes > 0`
and `speed_bps > 0`, and `none` otherwise; an update on a missing snapshot
reports failure and stores nothing. -/
theorem c7_update_progress (d : ProgressData) (p : ℚ) (cur tot : Int) (speed : ℚ) :
    (update_progress (some d) p cur tot speed).1 = true ∧
    ((update_progress (some d) p cur tot speed).2.map ProgressData.progress)
      = some (max 0 (min 100 p)) ∧
    ((update_progress (some d) p cur tot speed).2.map ProgressData.eta_seconds)
      = some (if 0 < tot ∧ 0 < speed then some (((tot : ℚ) - (cur : ℚ)) / speed) else none) ∧
    update_progress none p cur tot speed = (false, none) := by
  refine ⟨rfl, rfl, ?_, rfl⟩
  by_cases h : 0 < tot ∧ 0 < speed <;> simp [update_progress, h]

end Progress

/-! ## Circuit breaker (`services/circuit_breaker.py`) -/

namespace Breaker

/-- `CircuitState` of `services/circuit_breaker.py`. -/
inductive CircuitState where
  | closed
  | opened
  | halfOpen
  deriving DecidableEq, Repr

/-- The mutable fields of `CircuitBreaker`; timestamps are seconds as
integers. -/
structure CircuitBreaker where
  failure_threshold : Nat
  recovery_timeout : Int
  state : CircuitState
  failure_count : Nat
  last_failure_time : Option Int
  opened_at : Option Int
  deriving DecidableEq, Repr

/-- `CircuitBreaker.is_open` evaluated at wall-clock second `now`: in the
Open state with `recovery_timeout` elapsed since `opened_at`, moves to
Half-Open and resets `failure_count` to 0; Closed and Half-Open report not
open.  Returns the answer together with the possibly updated breaker. -/
def is_open (b : CircuitBreaker) (now : Int) : Bool × CircuitBreaker :=
  match b.state with
  | .closed => (false, b)
  | .opened =>
      match b.opened_at with
      | some t =>
          if b.recovery_timeout ≤ now - t then
            (false, { b with state := .halfOpen, failure_count := 0 })
          else (true, b)
      | none => (true, b)
  | .halfOpen => (false, b)

/-- `CircuitBreaker.record_success`: Half-Open goes to Closed with the
count reset; Closed decrements the count (floored at 0, which is natural
subtraction); Open is untouched. -/
def record_success (b : CircuitBreaker) : CircuitBreaker :=
  match b.state with
  | .halfOpen => { b with state := .closed, failure_count := 0 }
  | .closed => { b with failure_count := b.failure_count - 1 }
  | .opened => b

/-- `CircuitBreaker.record_failure` at wall-clock second `now`: increments
the count and stamps the failure time; only when the count reaches
`failure_threshold` and the breaker is not already Open does it transition
to Open and stamp `opened_at`. -/
def record_failure (b : CircuitBreaker) (now : Int) : CircuitBreaker :=
  let b1 := { b with failure_count := b.failure_count + 1, last_failure_time := some now }
  if b1.failure_threshold ≤ b1.failure_count then
    if b1.state ≠ .opened then
      { b1 with state := .opened, opened_at := some now }
    else b1
  else b1

/-- A breaker with the default parameters (threshold 5, recovery 60 s) that
opened at second 0 after 5 failures. -/
def demoOpen : CircuitBreaker :=
  { failure_threshold := 5
    recovery_timeout := 60
    state := .opened
    failure_count := 5
    last_failure_time := some 0
    opened_at := some 0 }

/-- `demoOpen` probed at second 60: the recovery timeout has elapsed, so
`is_open` moves it to Half-Open. -/
def demoHalfOpen : CircuitBreaker := (is_open demoOpen 60).2

/-- Counterexample to `C2`: for the default breaker that has just entered
Half-Open (failure count reset to 0 by `is_open`), recording a single
failure does not transition it back to Open — it stays Half-Open, because
`record_failure` reopens only once the count reaches the threshold of 5. -/
theorem c2_counterexample :
    demoHalfOpen.state = CircuitState.halfOpen ∧
    demoHalfOpen.failure_count = 0 ∧
    (record_failure demoHalfOpen 61).state ≠ CircuitState.opened ∧
    (record_failure demoHalfOpen 61).state = CircuitState.halfOpen := by
  decide

/-- `C2` amended: entering Half-Open (via `is_open` once `recovery_timeout`
has elapsed while Open) resets the failure count to 0; in Half-Open a
single success transitions to Closed, while a failure transitions back to
Open (stamping a fresh recovery window) only when it brings the count up to
`failure_threshold` — otherwise the breaker stays Half-Open. -/
theorem c2_half_open_transitions (b : CircuitBreaker) (now : Int)
    (h : b.state = CircuitState.halfOpen) :
    (record_success b).state = CircuitState.closed ∧
    (b.failure_count + 1 < b.failure_threshold →
      (record_failure b now).state = CircuitState.halfOpen) ∧
    (b.failure_threshold ≤ b.failure_count + 1 →
      (record_failure b now).state = CircuitState.opened ∧
      (record_failure b now).opened_at = some now) ∧
    (∀ b0 : CircuitBreaker, ∀ t : Int, b0.state = CircuitState.opened →
      b0.opened_at = some t → b0.recovery_timeout ≤ now - t →
      (is_open b0 now).1 = false ∧
      (is_open b0 now).2.state = CircuitState.halfOpen ∧
      (is_open b0 now).2.failure_count = 0) := by
  refine ⟨?_, ?_, ?_, ?_⟩
  · simp [record_success, h]
  · intro hlt
    have : ¬ b.failure_threshold ≤ b.failure_count + 1 := by omega
    simp [record_failure, this]
    exact h
  · intro hge
    have hne : CircuitState.halfOpen ≠ CircuitState.opened := by decide
    constructor <;> simp [record_failure, hge, h, hne]
  · intro b0 t h0 ht htime
    refine ⟨?_, ?_, ?_⟩ <;> simp [is_open, h0, ht, htime]

/-- Witness for `c2_half_open_transitions` at the default breaker that has
just entered Half-Open. -/
theorem c2_half_open_transitions_witness :
    (record_success demoHalfOpen).state = CircuitState.closed ∧
    (record_failure demoHalfOpen 61).state = CircuitState.halfOpen := by
  have h := c2_half_open_transitions demoHalfOpen 61 (by decide)
  exact ⟨h.1, h.2.1 (by decide)⟩

end Breaker

/-! ## Job queue (`services/job_manager.py`) -/

namespace JobQueueM

/-- `JobStatus` of `services/job_manager.py`. -/
inductive JobStatus where
  | pending
  | queued
  | running
  | completed
  | failed
  | cancelled
  | retrying
  deriving DecidableEq, Repr

/-- The fields of `Job` the scheduling logic reads or writes; ids are
natural-number tokens standing for the UUID strings. -/
structure Job where
  job_id : Nat
  task_id : Nat
  priority : Nat
  status : JobStatus
  max_retries : Nat
  retry_count : Nat
  error : Option String
  deriving DecidableEq, Repr

/-- `JobQueue`: per-priority FIFO queues (head = front), plus the
`active_jobs`, `completed_jobs` and `failed_jobs` dictionaries as
insertion-ordered association lists keyed by `job_id`. -/
structure JobQueue where
  max_workers : Nat
  priority_queues : Nat → List Job
  active_jobs : List (Nat × Job)
  completed_jobs : List (Nat × Job)
  failed_jobs : List (Nat × Job)

/-- Dictionary lookup on an association list (first entry wins, as keys are
unique in a Python dict). -/
def alookup (l : List (Nat × Job)) (k : Nat) : Option Job :=
  (l.find? (fun p => p.1 == k)).map (·.2)

/-- Dictionary `pop` of a key: remove the first entry with that key. -/
def aremove (l : List (Nat × Job)) (k : Nat) : List (Nat × Job) :=
  l.eraseP (fun p => p.1 == k)

/-- `JobQueue.enqueue`: build a fresh job (`job_id` stands for the generated
UUID) with status pending and zero retries, and append it to the tail of
its priority's queue. -/
def enqueue (q : JobQueue) (job_id task_id priority max_retries : Nat) : Job × JobQueue :=
  let job : Job :=
    { job_id := job_id, task_id := task_id, priority := priority,
      status := .pending, max_retries := max_retries, retry_count := 0, error := none }
  (job, { q with priority_queues := fun p =>
            if p = priority then q.priority_queues p ++ [job] else q.priority_queues p })

/-- Inner loop of `JobQueue.dequeue` over the given priorities. -/
def dequeueFrom (q : JobQueue) : List Nat → Option Job × JobQueue
  | [] => (none, q)
  | p :: ps =>
      match q.priority_queues p with
      | [] => dequeueFrom q ps
      | job :: rest =>
          let job1 := { job with status := JobStatus.running }
          (some job1,
           { q with
             priority_queues := fun r => if r = p then rest else q.priority_queues r
             active_jobs := q.active_jobs ++ [(job.job_id, job1)] })

/-- `JobQueue.dequeue`: scan the priorities from highest (4 = CRITICAL) to
lowest (0 = LOWEST), pop the head of the first non-empty queue, mark it
running and register it in `active_jobs`. -/
def dequeue (q : JobQueue) : Option Job × JobQueue :=
  dequeueFrom q [4, 3, 2, 1, 0]

/-- `JobQueue.mark_failed`: a non-active job id reports `false`.  Otherwise
the job is popped from `active_jobs` and given the error; when retries
remain and `should_retry` holds, it is re-enqueued at the tail of the queue
of its unchanged priority with `retry_count + 1` and status retrying, and
re-inserted into `active_jobs`; otherwise it moves to `failed_jobs` with
status failed. -/
def mark_failed (q : JobQueue) (job_id : Nat) (error : String) (should_retry : Bool) :
    Bool × JobQueue :=
  match alookup q.active_jobs job_id with
  | none => (false, q)
  | some job =>
      let act := aremove q.active_jobs job_id
      let job1 := { job with error := some error }
      if should_retry && decide (job1.retry_count < job1.max_retries) then
        let job2 := { job1 with retry_count := job1.retry_count + 1, status := .retrying }
        (true, { q with
          priority_queues := fun p =>
            if p = job2.priority then q.priority_queues p ++ [job2] else q.priority_queues p
          active_jobs := act ++ [(job_id, job2)] })
      else
        (true, { q with
          active_jobs := act
          failed_jobs := q.failed_jobs ++ [(job_id, { job1 with status := .failed })] })

/-- `JobQueue.get_active_count`. -/
def get_active_count (q : JobQueue) : Nat := q.active_jobs.length

/-- `JobQueue.can_add_job`. -/
def can_add_job (q : JobQueue) : Bool := decide (q.active_jobs.length < q.max_workers)

/-- A running NORMAL-priority job with no retries used yet. -/
def demoJob : Job :=
  { job_id := 1, task_id := 10, priority := 2, status := .running,
    max_retries := 3, retry_count := 0, error := none }

/-- A queue whose only activity is `demoJob`, currently running. -/
def demoQueue : JobQueue :=
  { max_workers := 3, priority_queues := fun _ => [],
    active_jobs := [(1, demoJob)], completed_jobs := [], failed_jobs := [] }

/-- `demoQueue` after `demoJob` fails with a retryable error. -/
def demoAfterRetry : JobQueue := (mark_failed demoQueue 1 "timeout" true).2

/-- `demoAfterRetry` after a fresh job of the same NORMAL priority arrives. -/
def demoAfterFresh : JobQueue := (enqueue demoAfterRetry 2 20 2 3).2

/-- Counterexample to `C3`: when `demoJob` (priority NORMAL = 2) fails
retryably, `mark_failed` re-enqueues it with `retry_count` 1 but at its
unchanged priority 2 — no score penalty exists — and a fresh job of equal
priority enqueued afterwards is dequeued after the retry, not before it. -/
theorem c3_counterexample :
    ((mark_failed demoQueue 1 "timeout" true).1 = true) ∧
    ((alookup demoAfterRetry.active_jobs 1).map Job.retry_count = some 1) ∧
    ((alookup demoAfterRetry.active_jobs 1).map Job.priority = some 2) ∧
    ((demoAfterRetry.priority_queues 2).map Job.priority = [2]) ∧
    ((dequeue demoAfterFresh).1.map Job.task_id = some 10) := by
  refine ⟨rfl, rfl, rfl, rfl, ?_⟩
  decide

/-- Explicit form of the retry branch of `mark_failed`. -/
theorem mark_failed_retry_eq (q : JobQueue) (job_id : Nat) (err : String) (job : Job)
    (h : alookup q.active_jobs job_id = some job)
    (hr : job.retry_count < job.max_retries) :
    mark_failed q job_id err true =
      (true,
       { q with
         priority_queues := fun p =>
           if p = job.priority then
             q.priority_queues p ++
               [{ job with error := some err, retry_count := job.retry_count + 1,
                           status := JobStatus.retrying }]
           else q.priority_queues p
         active_jobs := aremove q.active_jobs job_id ++
           [(job_id, { job with error := some err, retry_count := job.retry_count + 1,
                                status := JobStatus.retrying })] }) := by
  simp [mark_failed, h, hr]

/-- `C3` amended: a job failing retryably with attempts below the maximum is
re-enqueued with `retry_count + 1` and status retrying at the tail of the
FIFO queue of its original, unchanged priority; no score penalty is applied,
the other priority queues are untouched, and so fresh work of equal priority
enqueued after the retry is served after it, not before. -/
theorem c3_retry_same_priority (q : JobQueue) (job_id : Nat) (err : String) (job : Job)
    (h : alookup q.active_jobs job_id = some job)
    (hr : job.retry_count < job.max_retries) :
    (mark_failed q job_id err true).1 = true ∧
    ((mark_failed q job_id err true).2.priority_queues job.priority =
      q.priority_queues job.priority ++
        [{ job with error := some err, retry_count := job.retry_count + 1,
                    status := JobStatus.retrying }]) ∧
    (∀ p, p ≠ job.priority →
      (mark_failed q job_id err true).2.priority_queues p = q.priority_queues p) := by
  rw [mark_failed_retry_eq q job_id err job h hr]
  refine ⟨rfl, by simp, ?_⟩
  intro p hp
  simp [hp]

/-- Witness for `c3_retry_same_priority` on the demo queue. -/
theorem c3_retry_same_priority_witness :
    demoAfterRetry.priority_queues 2 =
      [{ demoJob with error := some "timeout", retry_count := 1,
                      status := JobStatus.retrying }] := by
  have h := c3_retry_same_priority demoQueue 1 "timeout" demoJob rfl (by decide)
  exact h.2.1

theorem length_eraseP_of_find {α : Type} (p : α → Bool) :
    ∀ l : List α, (l.find? p).isSome → (l.eraseP p).length + 1 = l.length := by
  intro l
  induction l with
  | nil => intro h; simp [List.find?] at h
  | cons a t ih =>
      intro h
      by_cases ha : p a
      · simp [List.eraseP_cons, ha]
      · have ht : (t.find? p).isSome := by
          simpa [List.find?_cons, ha] using h
        simp [List.eraseP_cons, ha, ih ht]

/-- `C9`: a job re-enqueued for retry by `mark_failed` is simultaneously in
its priority queue and back in `active_jobs`, so `get_active_count` is
unchanged (it does not decrease) and `can_add_job` still counts the waiting
retry against the concurrency cap. -/
theorem c9_retry_keeps_active (q : JobQueue) (job_id : Nat) (err : String) (job : Job)
    (h : alookup q.active_jobs job_id = some job)
    (hr : job.retry_count < job.max_retries) :
    ((alookup (mark_failed q job_id err true).2.active_jobs job_id) =
      some { job with error := some err, retry_count := job.retry_count + 1,
                      status := JobStatus.retrying } ∨
     (alookup (mark_failed q job_id err true).2.active_jobs job_id).isSome) ∧
    ({ job with error := some err, retry_count := job.retry_count + 1,
                status := JobStatus.retrying }
        ∈ (mark_failed q job_id err true).2.priority_queues job.priority) ∧
    get_active_count (mark_failed q job_id err true).2 = get_active_count q ∧
    can_add_job (mark_failed q job_id err true).2 = can_add_job q := by
  have hfind : ((q.active_jobs.find? (fun p => p.1 == job_id)).isSome) := by
    unfold alookup at h
    cases hf : q.active_jobs.find? (fun p => p.1 == job_id) with
    | none => rw [hf] at h; simp at h
    | some v => simp [hf]
  have hlen : (aremove q.active_jobs job_id).length + 1 = q.active_jobs.length :=
    length_eraseP_of_find _ _ hfind
  rw [mark_failed_retry_eq q job_id err job h hr]
  refine ⟨?_, ?_, ?_, ?_⟩
  · right
    unfold alookup
    rw [List.find?_append]
    cases hfa : (aremove q.active_jobs job_id).find? (fun p => p.1 == job_id) with
    | some v => simp [hfa]
    | none => simp [hfa, List.find?]
  · simp
  · simp only [get_active_count, List.length_append, List.length_cons, List.length_nil]
    omega
  · simp only [can_add_job, List.length_append, List.length_cons, List.length_nil,
      decide_eq_decide]
    omega

/-- Witness for `c9_retry_keeps_active` on the demo queue. -/
theorem c9_retry_keeps_active_witness :
    get_active_count demoAfterRetry = get_active_count demoQueue ∧
    can_add_job demoAfterRetry = can_add_job demoQueue := by
  have h := c9_retry_keeps_active demoQueue 1 "timeout" demoJob rfl (by decide)
  exact ⟨h.2.2.1, h.2.2.2⟩

end JobQueueM

/-! ## HTTP endpoint decision logic (`app/endpoints.py`, `core/exceptions/base.py`) -/

namespace Api

/-- The task statuses `app/endpoints.py` distinguishes. -/
inductive TaskStatus where
  | pending
  | downloading
  | completed
  | failed
  | cancelled
  deriving DecidableEq, Repr

/-- The columns of a `DownloadTask` row the cancel and file-download
endpoints read; ids are natural-number tokens standing for the UUIDs. -/
structure DownloadTask where
  id : Nat
  status : TaskStatus
  file_path : Option String
  error_message : Option String
  deriving DecidableEq, Repr

/-- The `APIException` subclasses of `core/exceptions/base.py` these
endpoints raise. -/
inductive ApiError where
  | taskNotFound (id : Nat)
  | invalidState (current : TaskStatus) (operation : String) (allowed : List TaskStatus)
  | fileAccess (path : String) (reason : String)
  | pathTraversal (path : String)
  deriving DecidableEq, Repr

/-- The `status_code` each of these exceptions carries in
`core/exceptions/base.py` (`NotFoundError` 404, `InvalidStateError` 409,
`FileAccessError` and its subclass `PathTraversalError` 403); the
registered `APIException` handler returns exactly this code. -/
def ApiError.status_code : ApiError → Nat
  | .taskNotFound _ => 404
  | .invalidState _ _ _ => 409
  | .fileAccess _ _ => 403
  | .pathTraversal _ => 403

/-- The `error_code` string of each exception. -/
def ApiError.error_code : ApiError → String
  | .taskNotFound _ => "NOT_FOUND"
  | .invalidState _ _ _ => "INVALID_STATE"
  | .fileAccess _ _ => "FILE_ACCESS_DENIED"
  | .pathTraversal _ => "FILE_ACCESS_DENIED"

/-- `POST /api/cancel/:task_id` (`cancel_task` in `app/endpoints.py`): a
missing row raises `TaskNotFoundError`; a status outside pending and
downloading raises `InvalidStateError`; otherwise the service cancel runs
and the row is committed as cancelled.  On success the updated table is
returned; a raised exception leaves the table unwritten. -/
def cancel_task (db : List DownloadTask) (tid : Nat) :
    Except ApiError (List DownloadTask) :=
  match db.find? (fun t => t.id == tid) with
  | none => .error (.taskNotFound tid)
  | some t =>
      if t.status = .pending ∨ t.status = .downloading then
        .ok (db.map fun u => if u.id == tid then { u with status := .cancelled } else u)
      else
        .error (.invalidState t.status "cancel" [.pending, .downloading])

/-- The file-system facts `download_file` consults: whether
`os.path.exists` holds for a path, and whether the resolved path starts
with the resolved `DOWNLOAD_DIR`. -/
structure FsModel where
  exists_file : String → Bool
  resolves_under_dir : String → Bool

/-- `GET /api/download/:task_id` (`download_file` in `app/endpoints.py`):
missing row → `TaskNotFoundError`; status other than completed →
`InvalidStateError`; missing or non-existent file → `FileAccessError`;
resolved path outside `DOWNLOAD_DIR` → `PathTraversalError`; otherwise a
`FileResponse` streaming the file at the stored path. -/
def download_file (db : List DownloadTask) (fs : FsModel) (tid : Nat) :
    Except ApiError String :=
  match db.find? (fun t => t.id == tid) with
  | none => .error (.taskNotFound tid)
  | some t =>
      if t.status ≠ .completed then
        .error (.invalidState t.status "download" [.completed])
      else
        match t.file_path with
        | none => .error (.fileAccess "unknown" "File not found")
        | some p =>
            if fs.exists_file p = false then .error (.fileAccess p "File not found")
            else if fs.resolves_under_dir p = false then .error (.pathTraversal p)
            else .ok p

/-- A table holding one completed and one pending task. -/
def demoDb : List DownloadTask :=
  [ { id := 7, status := .completed, file_path := some "7.mp4", error_message := none },
    { id := 3, status := .pending, file_path := none, error_message := none } ]

/-- A file system on which every stored path exists inside the download
directory. -/
def demoFs : FsModel :=
  { exists_file := fun _ => true, resolves_under_dir := fun _ => true }

/-- Counterexample to `C4`: cancelling the already-completed task 7 is not
an idempotent no-op returning the current state — `cancel_task` raises
`InvalidStateError`, which surfaces as HTTP 409. -/
theorem c4_counterexample :
    cancel_task demoDb 7 =
      Except.error (ApiError.invalidState TaskStatus.completed "cancel"
        [TaskStatus.pending, TaskStatus.downloading]) ∧
    (ApiError.invalidState TaskStatus.completed "cancel"
        [TaskStatus.pending, TaskStatus.downloading]).status_code = 409 := by
  exact ⟨rfl, rfl⟩

/-- `C4` amended: a cancel request for a task whose status is terminal
(completed, failed or cancelled) is rejected with `InvalidStateError`
(HTTP 409, error code INVALID_STATE) naming the current state; the handler
raises before any write, so the table is left unchanged. -/
theorem c4_cancel_terminal_rejected (db : List DownloadTask) (tid : Nat) (t : DownloadTask)
    (hf : db.find? (fun u => u.id == tid) = some t)
    (ht : t.status = TaskStatus.completed ∨ t.status = TaskStatus.failed ∨
          t.status = TaskStatus.cancelled) :
    cancel_task db tid =
      Except.error (ApiError.invalidState t.status "cancel"
        [TaskStatus.pending, TaskStatus.downloading]) ∧
    (ApiError.invalidState t.status "cancel"
        [TaskStatus.pending, TaskStatus.downloading]).status_code = 409 ∧
    (ApiError.invalidState t.status "cancel"
        [TaskStatus.pending, TaskStatus.downloading]).error_code = "INVALID_STATE" := by
  have hng : ¬ (t.status = TaskStatus.pending ∨ t.status = TaskStatus.downloading) := by
    rcases ht with h1 | h1 | h1 <;> rw [h1] <;> decide
  refine ⟨?_, rfl, rfl⟩
  simp [cancel_task, hf, hng]

/-- Witness for `c4_cancel_terminal_rejected` at the completed task 7. -/
theorem c4_cancel_terminal_rejected_witness :
    cancel_task demoDb 7 =
      Except.error (ApiError.invalidState TaskStatus.completed "cancel"
        [TaskStatus.pending, TaskStatus.downloading]) :=
  (c4_cancel_terminal_rejected demoDb 7
    { id := 7, status := .completed, file_path := some "7.mp4", error_message := none }
    rfl (Or.inl rfl)).1

/-- Counterexample to `C5`: requesting the artefact of the pending task 3
yields `InvalidStateError` with HTTP status 409, not 400. -/
theorem c5_counterexample :
    download_file demoDb demoFs 3 =
      Except.error (ApiError.invalidState TaskStatus.pending "download"
        [TaskStatus.completed]) ∧
    (ApiError.invalidState TaskStatus.pending "download"
        [TaskStatus.completed]).status_code = 409 ∧
    (409 : Nat) ≠ 400 := by
  exact ⟨rfl, rfl, by decide⟩

/-- `C5` amended: `GET /api/download/:id` on an existing task whose status
is not completed responds with `InvalidStateError`, HTTP 409 (not 400);
when the status is completed and the stored path exists inside
`DOWNLOAD_DIR`, it streams the file at that path. -/
theorem c5_download_endpoint (db : List DownloadTask) (fs : FsModel) (tid : Nat)
    (t : DownloadTask) (hf : db.find? (fun u => u.id == tid) = some t) :
    (t.status ≠ TaskStatus.completed →
      download_file db fs tid =
        Except.error (ApiError.invalidState t.status "download" [TaskStatus.completed]) ∧
      (ApiError.invalidState t.status "download" [TaskStatus.completed]).status_code = 409) ∧
    (∀ p : String, t.status = TaskStatus.completed → t.file_path = some p →
      fs.exists_file p = true → fs.resolves_under_dir p = true →
      download_file db fs tid = Except.ok p) := by
  constructor
  · intro hs
    exact ⟨by simp [download_file, hf, hs], rfl⟩
  · intro p hs hp he hu
    simp [download_file, hf, hs, hp, he, hu]

/-- Witness for `c5_download_endpoint` at the pending task 3 and the
completed task 7. -/
theorem c5_download_endpoint_witness :
    download_file demoDb demoFs 3 =
      Except.error (ApiError.invalidState TaskStatus.pending "download"
        [TaskStatus.completed]) ∧
    download_file demoDb demoFs 7 = Except.ok "7.mp4" := by
  constructor
  · exact ((c5_download_endpoint demoDb demoFs 3
      { id := 3, status := .pending, file_path := none, error_message := none }
      rfl).1 (by decide)).1
  · exact (c5_download_endpoint demoDb demoFs 7
      { id := 7, status := .completed, file_path := some "7.mp4", error_message := none }
      rfl).2 "7.mp4" rfl rfl rfl rfl

end Api

/-! ## Download service terminal handling (`services/download_service.py`) -/

namespace DlService

open Api

/-- The state the download service's cancel and failure paths touch: the
set of file basenames in `DOWNLOAD_DIR`, the task table, and the
`active_processes` map of task ids with a live yt-dlp child. -/
structure ServiceState where
  files : List String
  db : List Api.DownloadTask
  active_processes : List Nat
  deriving DecidableEq, Repr

/-- The failure path of `DownloadService.download` (yt-dlp exited non-zero,
the 1-hour timeout fired, or an unexpected exception): the row is committed
as failed with the error truncated to 500 characters, and the `finally`
block drops the process entry.  No file in `DOWNLOAD_DIR` is touched. -/
def handle_download_failure (s : ServiceState) (tid : Nat) (err : String) : ServiceState :=
  { s with
    db := s.db.map fun t =>
      if t.id == tid then
        { t with status := .failed, error_message := some (err.take 500) }
      else t
    active_processes := s.active_processes.erase tid }

/-- The `asyncio.CancelledError` path of `DownloadService.download`: the row
is committed as cancelled and the `finally` block drops the process entry.
No file in `DOWNLOAD_DIR` is touched. -/
def handle_download_cancelled (s : ServiceState) (tid : Nat) : ServiceState :=
  { s with
    db := s.db.map fun t =>
      if t.id == tid then { t with status := .cancelled } else t
    active_processes := s.active_processes.erase tid }

/-- `DownloadService.cancel_task`: terminate the child process when one is
registered (it then exits, and the download coroutine's `finally` drops the
entry) and report whether one was found.  No file in `DOWNLOAD_DIR` is
touched. -/
def cancel_task (s : ServiceState) (tid : Nat) : Bool × ServiceState :=
  if s.active_processes.contains tid then
    (true, { s with active_processes := s.active_processes.erase tid })
  else (false, s)

/-- A download of task 42 that wrote one partial output file, now in its
terminal handling. -/
def demoState : ServiceState :=
  { files := ["42.mp4.part"]
    db := [{ id := 42, status := .downloading, file_path := none, error_message := none }]
    active_processes := [42] }

/-- `C6`: the code removes no partial output file on cancellation or
failure — after the failure path, the cancellation path, or a service
cancel, `DOWNLOAD_DIR` holds exactly the files it held before, so an
artefact written for a task that ends failed or cancelled stays in the
directory.  (The specification requires the opposite; the only deletion in
the repository is the explicit `DELETE /api/task` endpoint and the cleanup
sweep.) -/
theorem c6_no_cleanup_on_failure_or_cancel (s : ServiceState) (tid : Nat) (err : String) :
    (handle_download_failure s tid err).files = s.files ∧
    (handle_download_cancelled s tid).files = s.files ∧
    ((cancel_task s tid).2).files = s.files ∧
    (handle_download_failure demoState 42 "yt-dlp exited 1").files = ["42.mp4.part"] ∧
    ((handle_download_failure demoState 42 "yt-dlp exited 1").db.map
        Api.DownloadTask.status) = [Api.TaskStatus.failed] ∧
    (handle_download_cancelled demoState 42).files = ["42.mp4.part"] := by
  refine ⟨rfl, rfl, ?_, by decide, by decide, by decide⟩
  unfold cancel_task
  by_cases h : tid ∈ s.active_processes <;> simp [h]

end DlService


/-! ## Input validation (`core/validation/validators.py`) -/

namespace Validation

/-- Python strings are modelled as character lists (`String.data`), so that
the lowercasing and scanning the validators perform stay kernel-computable. -/
def Str := List Char

/-- `str.lower()`. -/
def toLowerL (s : List Char) : List Char := s.map Char.toLower

/-- `QualityValidator.VALID_QUALITIES`. -/
def VALID_QUALITIES : List (List Char) := ["best".data, "worst".data]

/-- Full match of `QualityValidator.QUALITY_PATTERN`: three or four digits
followed by a final letter p. -/
def quality_pattern_match (cs : List Char) : Bool :=
  (decide (cs.length = 4) || decide (cs.length = 5)) &&
  (match cs.getLast? with
   | some c => c == 'p'
   | none => false) &&
  cs.dropLast.all Char.isDigit

/-- `QualityValidator.validate`: the empty value is acceptable (quality is
optional); otherwise the lowercased value must be `best` or `worst`, or the
original value must match the height pattern. -/
def qualityValidate (quality : List Char) : Bool :=
  if quality = [] then true
  else VALID_QUALITIES.contains (toLowerL quality) || quality_pattern_match quality

/-- `QualityValidator.validate_or_raise`: despite the name it never raises —
a missing or empty quality becomes the default `best`, an invalid one is
silently replaced by `best` (with a log warning), and a valid one is kept. -/
def quality_validate_or_raise (quality : Option (List Char)) : List Char :=
  match quality with
  | none => "best".data
  | some q =>
      if q = [] then "best".data
      else if qualityValidate q then q else "best".data

/-- The authority component of `URLValidator.validate`, modelling the
stdlib `urlparse` call for ordinary absolute URLs: the characters after the
scheme separator up to the next slash, question mark or hash. -/
def netlocOf (url : List Char) : List Char :=
  let l := toLowerL url
  let rest :=
    if "https://".data.isPrefixOf l then l.drop 8
    else if "http://".data.isPrefixOf l then l.drop 7
    else []
  rest.takeWhile fun c => c != '/' && c != '?' && c != '#'

/-- `URLValidator.validate`: accepted scheme, non-empty authority, and at
most 2048 characters. -/
def urlValidate (url : List Char) : Bool :=
  ("http://".data.isPrefixOf (toLowerL url) || "https://".data.isPrefixOf (toLowerL url)) &&
  decide (netlocOf url ≠ []) &&
  decide (url.length ≤ 2048)

/-- The keys of `FormatValidator.ALLOWED_FORMATS`. -/
def ALLOWED_FORMATS : List (List Char) :=
  ["mp3".data, "mp4".data, "best".data, "audio".data, "video".data,
   "webm".data, "wav".data, "flac".data, "aac".data]

/-- `FormatValidator.validate`: non-empty and lowercases to an allowed
format. -/
def formatValidate (fmt : List Char) : Bool :=
  decide (fmt ≠ []) && ALLOWED_FORMATS.contains (toLowerL fmt)

/-- The `ValidationError` subclasses `validate_download_request` can raise
(both carry HTTP status 400). -/
inductive ValErr where
  | invalidURL (url : List Char)
  | invalidFormat (fmt : List Char)
  deriving DecidableEq, Repr

/-- `URLValidator.validate_or_raise`. -/
def url_validate_or_raise (url : List Char) : Except ValErr (List Char) :=
  if urlValidate url then .ok url else .error (.invalidURL url)

/-- `FormatValidator.validate_or_raise` (returns the lowercased format). -/
def format_validate_or_raise (fmt : List Char) : Except ValErr (List Char) :=
  if formatValidate fmt then .ok (toLowerL fmt) else .error (.invalidFormat fmt)

/-- `InputValidator.validate_download_request`: validates the URL, then the
format, then runs the non-raising quality fallback; the MP3 title is only
truncated locally and does not affect the result. -/
def validate_download_request (url fmt : List Char) (quality mp3_title : Option (List Char)) :
    Except ValErr (List Char × List Char × List Char) := do
  let u ← url_validate_or_raise url
  let f ← format_validate_or_raise fmt
  let q := quality_validate_or_raise quality
  let _ := mp3_title
  pure (u, f, q)

/-- Whether an `Except` result is a success. -/
def isOkE {α : Type} (e : Except ValErr α) : Bool :=
  match e with
  | .ok _ => true
  | .error _ => false

/-- `C10`: quality validation can never reject a download request — a
missing, empty or syntactically invalid quality is silently replaced by
`best`, a valid one is kept, and whether `validate_download_request`
succeeds depends only on the URL and format checks, never on the quality. -/
theorem c10_quality_never_rejects (url fmt : List Char) (q mp3_title : Option (List Char))
    (s : List Char) (hs : qualityValidate s = false) :
    quality_validate_or_raise none = "best".data ∧
    quality_validate_or_raise (some "".data) = "best".data ∧
    quality_validate_or_raise (some s) = "best".data ∧
    (∀ v : List Char, v ≠ [] → qualityValidate v = true →
        quality_validate_or_raise (some v) = v) ∧
    isOkE (validate_download_request url fmt q mp3_title)
      = (urlValidate url && formatValidate fmt) := by
  refine ⟨rfl, rfl, ?_, ?_, ?_⟩
  · have hne : s ≠ [] := by
      intro he
      rw [he] at hs
      simp [qualityValidate] at hs
    simp [quality_validate_or_raise, hne, hs]
  · intro v hv hval
    simp [quality_validate_or_raise, hv, hval]
  · unfold validate_download_request url_validate_or_raise format_validate_or_raise
    by_cases hu : urlValidate url
    · by_cases hf : formatValidate fmt
      · simp [hu, hf, isOkE, Bind.bind, Except.bind, pure, Except.pure]
      · simp [hu, hf, isOkE, Bind.bind, Except.bind]
    · simp [hu, isOkE, Bind.bind, Except.bind]

/-- Witness for `c10_quality_never_rejects`: the malformed quality `720P`
(capital letter, so neither a named quality nor a height pattern) is
replaced by `best`, and a request carrying it still validates. -/
theorem c10_quality_never_rejects_witness :
    quality_validate_or_raise (some "720P".data) = "best".data ∧
    isOkE (validate_download_request "https://example.test/v/abc".data "mp4".data
      (some "720P".data) none) = true := by
  have h := c10_quality_never_rejects "https://example.test/v/abc".data "mp4".data
    (some "720P".data) none "720P".data (by decide)
  refine ⟨h.2.2.1, ?_⟩
  rw [h.2.2.2.2]
  decide

end Validation

/-! ## Task creation endpoint (`app/endpoints.py` `create_download`,
`infrastructure/redis_manager.py`) -/

namespace CreateDl

/-- The methods the class `RedisManager` in
`infrastructure/redis_manager.py` defines, transcribed from the class body
(this is the `redis_manager` instance `app/endpoints.py` imports). -/
def redisManagerMethods : List String :=
  ["connect", "disconnect", "ping", "get", "set", "delete", "increment_stat",
   "get_stat", "add_to_queue", "get_next_pending", "can_start_download",
   "add_to_active", "remove_from_active", "get_queue_size", "get_active_count",
   "set_progress"]

/-- A Python `AttributeError` raised by attribute lookup on an instance
whose class lacks the attribute. -/
inductive PyError where
  | attributeError (cls attr : String)
  deriving DecidableEq, Repr

/-- Python attribute lookup on the `RedisManager` instance: defined methods
resolve, anything else raises `AttributeError`. -/
def getattr_call (attr : String) : Except PyError Unit :=
  if attr ∈ redisManagerMethods then .ok () else .error (.attributeError "RedisManager" attr)

/-- The durable effects of `create_download`: the task table rows and the
task ids handed to `JobQueue.enqueue`, in order. -/
structure AppState where
  db : List Api.DownloadTask
  job_queue : List Nat
  deriving DecidableEq, Repr

/-- `DownloadService.create_task`: commits a pending row for the fresh task
id and enqueues the id into the job queue, then returns the id. -/
def create_task (s : AppState) (tid : Nat) : AppState :=
  { db := s.db ++ [{ id := tid, status := .pending, file_path := none, error_message := none }]
    job_queue := s.job_queue ++ [tid] }

/-- The response body `create_download` would build on success. -/
structure TaskResponse where
  task_id : Nat
  status : String
  queue_position : Nat
  deriving DecidableEq, Repr

/-- `create_download` in `app/endpoints.py`: validate the request; on
success run `create_task` (DB commit + enqueue), then call
`redis_manager.get_queue_position(task_id)` — an attribute the imported
`RedisManager` does not define — and only then build the `TaskResponse`.
The result is paired with the durable state after the handler. -/
def create_download (s : AppState) (url fmt : List Char)
    (quality mp3_title : Option (List Char)) (tid : Nat) :
    Except (Validation.ValErr ⊕ PyError) TaskResponse × AppState :=
  match Validation.validate_download_request url fmt quality mp3_title with
  | .error e => (.error (.inl e), s)
  | .ok _ =>
      let s1 := create_task s tid
      match getattr_call "get_queue_position" with
      | .error e => (.error (.inr e), s1)
      | .ok _ => (.ok { task_id := tid, status := "pending", queue_position := 0 }, s1)

/-- `C8`: a request that passes validation creates and commits the task row
and enqueues the job, but the handler then raises `AttributeError` on
`get_queue_position` (no such method exists on the infrastructure
`RedisManager`), so the client never receives the task id even though the
row and the queue entry persist. -/
theorem c8_create_download_attribute_error (s : AppState) (url fmt : List Char)
    (quality mp3_title : Option (List Char)) (tid : Nat)
    (hv : Validation.isOkE
      (Validation.validate_download_request url fmt quality mp3_title) = true) :
    (create_download s url fmt quality mp3_title tid).1 =
      Except.error (Sum.inr (PyError.attributeError "RedisManager" "get_queue_position")) ∧
    "get_queue_position" ∉ redisManagerMethods ∧
    (∃ t ∈ (create_download s url fmt quality mp3_title tid).2.db, t.id = tid) ∧
    tid ∈ (create_download s url fmt quality mp3_title tid).2.job_queue := by
  have hga : getattr_call "get_queue_position" =
      Except.error (PyError.attributeError "RedisManager" "get_queue_position") := by
    rfl
  cases hval : Validation.validate_download_request url fmt quality mp3_title with
  | error e =>
      rw [hval] at hv
      simp [Validation.isOkE] at hv
  | ok v =>
      refine ⟨?_, by decide, ?_, ?_⟩
      · simp [create_download, hval, hga]
      · refine ⟨{ id := tid, status := .pending, file_path := none, error_message := none },
          ?_, rfl⟩
        simp [create_download, hval, hga, create_task]
      · simp [create_download, hval, hga, create_task]

/-- Witness for `c8_create_download_attribute_error` at a concrete valid
request against an empty state. -/
theorem c8_create_download_attribute_error_witness :
    (create_download { db := [], job_queue := [] } "https://example.test/v/abc".data
        "mp4".data none none 99).1 =
      Except.error (Sum.inr (PyError.attributeError "RedisManager" "get_queue_position")) ∧
    99 ∈ (create_download { db := [], job_queue := [] } "https://example.test/v/abc".data
        "mp4".data none none 99).2.job_queue := by
  have h := c8_create_download_attribute_error { db := [], job_queue := [] }
    "https://example.test/v/abc".data "mp4".data none none 99 (by decide)
  exact ⟨h.1, h.2.2.2⟩

end CreateDl
